import Mathlib

/-!
Verification of the voice-bridge telephony server.

This file gives a shallow embedding, in Lean, of the parts of the
voice-bridge code base that its design document makes claims about:

* the mu-law audio codec of `vocode_server.py` (`_mulaw_to_pcm`,
  `_pcm_to_mulaw`);
* the endpointing logic of the transcription loop in `vocode_server.py`;
* the call registry updates of `telephony_router.py`
  (`handle_inbound_call`, `handle_call_end`) together with the adapter
  cleanup in `exotel_adapter.py` (`end_call`);
* the webhook handlers of `twilio_adapter.py` and `exotel_adapter.py`;
* the context fetch fallback of `api/client.py` (`get_full_context`) and
  `vocode_native_server.py` (`VocodeNativeServer.start`);
* the response stage of `vocode_server.py` (`_process_user_message`);
* provider resolution in `telephony_router.py`
  (`get_provider_for_call`, `detect_region_from_number`);
* the phone-number masking helpers of `app.py`,
  `twilio_adapter.py` and `vocode_native_server.py`.

Python dictionaries are modelled as association lists, Python byte
strings as lists of naturals below 256, Python `str` values that are
sliced character-wise as lists of characters, and `numpy` 16-bit
integers as `Int` with explicit wrap-around where the source overflows.
Collaborator calls (HTTP requests, websocket receives) enter the model
as explicit outcome values, so every control-flow branch of the source
is represented by a branch of the corresponding Lean definition.
-/

/-! ## Audio codec (`vocode_server.py`, `_mulaw_to_pcm` and `_pcm_to_mulaw`) -/

/-- Wrap an integer into the range of `numpy.int16`, as the conversion
`np.array([...], dtype=np.int16)` does with out-of-range literals. -/
def int16_wrap (v : Int) : Int :=
  ((v + 32768) % 65536) - 32768

/-- The table literal of `_mulaw_to_pcm` exactly as written in the source.
It has 8 rows of 8 values: 64 entries in total. -/
def mulaw_table_raw : List Int :=
  [0, 132, 396, 924, 1980, 4092, 8316, 16764,
   48, 144, 432, 1008, 2160, 4464, 9072, 18336,
   72, 168, 504, 1176, 2520, 5208, 10584, 21384,
   120, 216, 600, 1320, 2760, 5640, 11448, 23064,
   168, 264, 696, 1464, 3000, 6120, 12360, 24840,
   240, 336, 840, 1800, 3720, 7560, 15336, 30840,
   360, 456, 1080, 2232, 4584, 9256, 18696, 37512,
   552, 696, 1560, 3168, 6504, 13128, 26376, 52776]

/-- `mulaw_table` as the `numpy` int16 array stores it: each literal is
wrapped to the int16 range (37512 and 52776 overflow and become
negative). -/
def mulaw_table : List Int :=
  mulaw_table_raw.map int16_wrap

/-- `_mulaw_to_pcm`: each input byte indexes `mulaw_table` directly
(`mulaw_table[b] for b in mulaw_data`).  A byte that is not a valid
index raises `IndexError` in the source; the embedding returns `none`
in that case. -/
def mulaw_to_pcm (mulawData : List Nat) : Option (List Int) :=
  mulawData.mapM (fun b => mulaw_table.get? b)

/-- `MULAW_BIAS` of `_pcm_to_mulaw`. -/
def MULAW_BIAS : Nat := 33

/-- `MULAW_MAX` of `_pcm_to_mulaw` (`0x1FFF`). -/
def MULAW_MAX : Nat := 0x1FFF

/-- The chord if-chain of `_pcm_to_mulaw`: default 7, lowered by the
first matching magnitude bound. -/
def mulaw_chord (magnitude : Nat) : Nat :=
  if magnitude < 128 then 0
  else if magnitude < 256 then 1
  else if magnitude < 512 then 2
  else if magnitude < 1024 then 3
  else if magnitude < 2048 then 4
  else if magnitude < 4096 then 5
  else if magnitude < 8192 then 6
  else 7

/-- One sample of `_pcm_to_mulaw`: clip to `[-MULAW_MAX, MULAW_MAX]`,
split off the sign, add the bias to the magnitude, clamp, look up the
chord, extract the step, and complement the byte.  The final
`~(sign | (chord << 4) | step) & 0xFF` of the source equals XOR with
`0xFF` because the combined value fits in one byte. -/
def pcm_to_mulaw_sample (sample : Int) : Nat :=
  let clipped : Int := max (-(MULAW_MAX : Int)) (min (MULAW_MAX : Int) sample)
  let sign : Nat := if clipped < 0 then 0x80 else 0
  let magnitude0 : Nat := clipped.natAbs + MULAW_BIAS
  let magnitude : Nat := if magnitude0 > MULAW_MAX then MULAW_MAX else magnitude0
  let chord : Nat := mulaw_chord magnitude
  let step : Nat := (magnitude >>> (chord + 3)) &&& 0x0F
  ((sign ||| (chord <<< 4)) ||| step) ^^^ 0xFF

/-- `_pcm_to_mulaw` over a frame of 16-bit linear samples. -/
def pcm_to_mulaw (pcm : List Int) : List Nat :=
  pcm.map pcm_to_mulaw_sample

/-! ## Phone-number masking (`app.py`, `twilio_adapter.py`,
`vocode_native_server.py`) -/

/-- `mask_phone` of `app.py`.  Python strings are embedded as lists of
characters; `phone[:4]` is `take 4` and `phone[-2:]` is
`drop (length - 2)`.  The emptiness test `not phone` is subsumed by the
length test. -/
def mask_phone (phone : List Char) : List Char :=
  if phone.length < 6 then "****".toList
  else phone.take 4 ++ "****".toList ++ phone.drop (phone.length - 2)

/-- `mask_phone_number` of `twilio_adapter.py` (same body). -/
def mask_phone_number (phone : List Char) : List Char :=
  if phone.length < 6 then "****".toList
  else phone.take 4 ++ "****".toList ++ phone.drop (phone.length - 2)

/-- `_mask_phone` of `vocode_native_server.py` (same body). -/
def mask_phone_native (phone : List Char) : List Char :=
  if phone.length < 6 then "****".toList
  else phone.take 4 ++ "****".toList ++ phone.drop (phone.length - 2)

/-! ## Codec and masking claims -/

/-- Claim C9 (code bug evidence): the decode table of `_mulaw_to_pcm`
has only 64 entries, yet it is indexed by the raw input byte, so every
byte value from 64 to 255 makes the lookup go out of bounds
(`IndexError` in the source, `none` in the embedding).  Decode is
therefore not total on 8-bit frames; here it fails on the frame whose
single byte is 64. -/
theorem mulaw_decode_out_of_bounds :
    mulaw_table.length = 64 ∧ mulaw_to_pcm [64] = none := by
  decide

/-- Claim C1 (code bug evidence): decode-then-encode does not round
trip within any quantization error.  Decoding the valid frame `[0]`
yields the linear sample 0, but re-encoding 0 produces the code 251,
not 0 — and 251 is not even decodable, because the decode table stops
at index 63.  The encoder complements its output byte while the decoder
indexes its table by the raw byte, so the two halves of the codec are
mutually inconsistent. -/
theorem mulaw_roundtrip_breaks :
    mulaw_to_pcm [0] = some [0]
  ∧ pcm_to_mulaw [0] = [251]
  ∧ mulaw_to_pcm [251] = none := by
  decide

/-- Claim C10 counterexample: for the 6-character number `123456` the
masked form `1234****56` retains every character of the original in
order (`take 4` and the last two characters together are the whole
string), so nothing is omitted, contradicting the claim for length
exactly 6. -/
theorem mask_phone_six_retains_all :
    6 ≤ ("123456".toList).length
  ∧ mask_phone ("123456".toList) = ("1234****56".toList)
  ∧ ("123456".toList).take 4
      ++ ("123456".toList).drop (("123456".toList).length - 2)
      = "123456".toList := by
  decide

/-- Claim C10 (amended): the masking helpers return `****` for inputs
shorter than 6 characters; for inputs of length at least 7 the masked
form keeps only the first four and last two characters, hence omits at
least one character of the original; and the three helpers in `app.py`,
`twilio_adapter.py` and `vocode_native_server.py` agree. -/
theorem mask_phone_masking :
    (∀ l : List Char, l.length < 6 → mask_phone l = "****".toList)
  ∧ (∀ l : List Char, 7 ≤ l.length →
      mask_phone l = l.take 4 ++ "****".toList ++ l.drop (l.length - 2)
      ∧ (l.take 4 ++ l.drop (l.length - 2)).length < l.length)
  ∧ (∀ l : List Char, mask_phone_number l = mask_phone l
      ∧ mask_phone_native l = mask_phone l) := by
  refine ⟨fun l h => ?_, fun l h => ⟨?_, ?_⟩, fun l => ⟨rfl, rfl⟩⟩
  · simp [mask_phone, h]
  · have h6 : ¬ l.length < 6 := by omega
    simp [mask_phone, h6]
  · have h4 : l.take 4 = l.take 4 := rfl
    simp only [List.length_append, List.length_take, List.length_drop]
    omega

/-- Witness for the amended C10 theorem at concrete inputs of length 5
and length 7. -/
theorem mask_phone_masking_witness :
    mask_phone ("12345".toList) = "****".toList
  ∧ (("1234567".toList).take 4
      ++ ("1234567".toList).drop (("1234567".toList).length - 2)).length
      < ("1234567".toList).length :=
  ⟨mask_phone_masking.1 ("12345".toList) (by decide),
   (mask_phone_masking.2.1 ("1234567".toList) (by decide)).2⟩

/-! ## Turn detection (`vocode_server.py`, `_audio_receive_loop` and
`_transcription_loop`)

The receive loop appends each websocket audio message to
`speaking_buffer` and stamps `last_speech_time`; the transcription loop
wakes every 100 ms and, when `len(speaking_buffer) * 20ms >= 0.5s` and
`now - last_speech_time >= 0.5s`, joins the whole buffer into one
utterance, clears the buffer, and submits the utterance for
transcription.  The embedding works in integer milliseconds, tags every
received chunk with a fresh sequence number so that utterance contents
can be compared, and models the two loops as a step function over an
event trace: a `chunk t` event is one websocket message received at
time `t`, and a `tick t` event is one poll of the transcription loop at
time `t`. -/

/-- `self.chunk_duration_ms = 20`. -/
def chunk_duration_ms : Nat := 20

/-- `min_audio_duration = 0.5` seconds, in milliseconds. -/
def min_audio_duration_ms : Nat := 500

/-- `self.silence_threshold = 0.5` seconds, in milliseconds. -/
def silence_threshold_ms : Nat := 500

/-- The per-call state shared by the two loops: the buffered chunk
identifiers, the timestamp of the last received chunk, the next fresh
chunk identifier, and the utterances submitted so far (in order). -/
structure TDState where
  buffer : List Nat
  lastSpeech : Nat
  nextId : Nat
  emitted : List (List Nat)
deriving Repr, DecidableEq

/-- One scheduler event: a received audio chunk or a transcription-loop
poll, each carrying the current time in milliseconds. -/
inductive TDEvent where
  | chunk : Nat → TDEvent
  | tick : Nat → TDEvent
deriving Repr, DecidableEq

/-- The emission condition of `_transcription_loop`: a non-empty buffer
(`if not self.speaking_buffer: continue`), accumulated duration at
least the minimum, and trailing silence at least the threshold.
Truncated `Nat` subtraction agrees with the source: a poll earlier than
the last chunk gives a silence duration below the threshold in both. -/
def td_should_emit (s : TDState) (t : Nat) : Prop :=
  s.buffer ≠ []
  ∧ min_audio_duration_ms ≤ s.buffer.length * chunk_duration_ms
  ∧ silence_threshold_ms ≤ t - s.lastSpeech

instance (s : TDState) (t : Nat) : Decidable (td_should_emit s t) := by
  unfold td_should_emit
  infer_instance

/-- One event of the two loops.  A chunk is appended to the buffer and
refreshes `last_speech_time`; a poll either submits the whole buffer as
one utterance and clears it, or leaves the state unchanged. -/
def td_step (s : TDState) : TDEvent → TDState
  | TDEvent.chunk t =>
      { s with buffer := s.buffer ++ [s.nextId], lastSpeech := t, nextId := s.nextId + 1 }
  | TDEvent.tick t =>
      if td_should_emit s t then
        { s with buffer := [], emitted := s.emitted ++ [s.buffer] }
      else s

/-- Initial per-call state (`speaking_buffer = []`,
`last_speech_time = 0`). -/
def td_init : TDState := { buffer := [], lastSpeech := 0, nextId := 0, emitted := [] }

/-- Run the detector over a whole event trace. -/
def td_run (events : List TDEvent) : TDState :=
  events.foldl td_step td_init

/-- Invariant: some bound `low` separates already-submitted chunk
identifiers (all below it) from buffered ones (all at least it), and
the submitted utterances are pairwise disjoint. -/
def td_inv (s : TDState) : Prop :=
  ∃ low, low ≤ s.nextId
    ∧ (∀ x ∈ s.buffer, low ≤ x ∧ x < s.nextId)
    ∧ (∀ u ∈ s.emitted, ∀ x ∈ u, x < low)
    ∧ s.emitted.Pairwise (fun u v => ∀ x ∈ u, x ∉ v)

lemma td_inv_init : td_inv td_init := by
  refine ⟨0, ?_, ?_, ?_, ?_⟩ <;> simp [td_init]

lemma td_inv_step (s : TDState) (e : TDEvent) (h : td_inv s) : td_inv (td_step s e) := by
  obtain ⟨low, hlow, hbuf, hemit, hpw⟩ := h
  cases e with
  | chunk t =>
      refine ⟨low, ?_, ?_, ?_, ?_⟩
      · simp [td_step]; omega
      · intro x hx
        simp [td_step] at hx ⊢
        rcases hx with hx | hx
        · have := hbuf x hx; omega
        · omega
      · simpa [td_step] using hemit
      · simpa [td_step] using hpw
  | tick t =>
      by_cases hc : td_should_emit s t
      · refine ⟨s.nextId, ?_, ?_, ?_, ?_⟩
        · simp [td_step, hc]
        · intro x hx; simp [td_step, hc] at hx
        · intro u hu x hx
          simp [td_step, hc] at hu
          rcases hu with hu | hu
          · have := hemit u hu x hx; omega
          · subst hu; exact (hbuf x hx).2
        · simp only [td_step, hc, if_pos]
          rw [List.pairwise_append]
          refine ⟨hpw, by simp, ?_⟩
          intro u hu v hv x hxu hxv
          simp at hv; subst hv
          have h1 := hemit u hu x hxu
          have h2 := (hbuf x hxv).1
          omega
      · simpa [td_step, hc] using ⟨low, hlow, hbuf, hemit, hpw⟩

lemma td_inv_foldl (events : List TDEvent) :
    ∀ s : TDState, td_inv s → td_inv (events.foldl td_step s) := by
  induction events with
  | nil => intro s h; exact h
  | cons e rest ih => intro s h; exact ih _ (td_inv_step s e h)

/-- Claim C2: at any poll of the transcription loop, an utterance
(consisting of the whole buffer) is submitted, and the buffer cleared,
exactly when the accumulated active-speech duration is at least the
0.5 second minimum and the trailing silence since the last chunk is at
least the 0.5 second endpoint threshold (buffer non-emptiness is
implied by the duration bound); receiving a chunk never submits
anything; and over every event trace the submitted utterances are
pairwise disjoint, so no buffered chunk is ever part of two submitted
utterances. -/
theorem turn_detector_emission :
    (∀ (s : TDState) (t : Nat),
      ((td_step s (TDEvent.tick t)).emitted = s.emitted ++ [s.buffer]
        ∧ (td_step s (TDEvent.tick t)).buffer = [])
      ↔ (min_audio_duration_ms ≤ s.buffer.length * chunk_duration_ms
        ∧ silence_threshold_ms ≤ t - s.lastSpeech))
  ∧ (∀ (s : TDState) (t : Nat), (td_step s (TDEvent.chunk t)).emitted = s.emitted)
  ∧ (∀ events : List TDEvent,
      (td_run events).emitted.Pairwise (fun u v => ∀ x ∈ u, x ∉ v)) := by
  refine ⟨?_, ?_, ?_⟩
  · intro s t
    constructor
    · rintro ⟨hem, hbuf⟩
      by_cases hc : td_should_emit s t
      · exact ⟨hc.2.1, hc.2.2⟩
      · exfalso
        have hstep : td_step s (TDEvent.tick t) = s := by simp [td_step, hc]
        rw [hstep] at hem
        have hlen := congrArg List.length hem
        simp at hlen
    · rintro ⟨h1, h2⟩
      have hne : s.buffer ≠ [] := by
        intro h
        rw [h] at h1
        simp [min_audio_duration_ms] at h1
      have hc : td_should_emit s t := ⟨hne, h1, h2⟩
      simp [td_step, hc]
  · intro s t; rfl
  · intro events
    obtain ⟨low, _, _, _, hpw⟩ := td_inv_foldl events td_init td_inv_init
    exact hpw

/-! ## Call routing and registry (`telephony_router.py`) -/

/-- The `TelephonyProvider` enum. -/
inductive TelephonyProvider where
  | twilio
  | exotel
deriving Repr, DecidableEq

/-- `Settings.MAX_CONCURRENT_CALLS` (`config.py`): default 10. -/
def MAX_CONCURRENT_CALLS : Nat := 10

/-- The value stored in `TelephonyRouter.active_calls` for one call. -/
structure RouterCallData where
  provider : TelephonyProvider
  fromNumber : String
  toNumber : String
deriving Repr, DecidableEq

/-- The routers `active_calls` dictionary, as an insertion-ordered
association list keyed by call sid. -/
abbrev CallRegistry := List (String × RouterCallData)

/-- Python dictionary assignment `active_calls[call_sid] = {...}`:
overwrite an existing key in place, otherwise append. -/
def registry_insert (r : CallRegistry) (k : String) (v : RouterCallData) : CallRegistry :=
  if (r.lookup k).isSome then
    r.map (fun p => if p.1 == k then (k, v) else p)
  else r ++ [(k, v)]

/-- Python `del active_calls[call_sid]`. -/
def registry_remove (r : CallRegistry) (k : String) : CallRegistry :=
  r.filter (fun p => p.1 != k)

/-- The registry effect of `TelephonyRouter.handle_inbound_call`: the
method logs, picks the adapter, stores the call in `active_calls`, and
dispatches to the adapter.  No branch of the method (and no caller of
it) consults `MAX_CONCURRENT_CALLS` or the registry size before the
entry is stored. -/
def handle_inbound_call (activeCalls : CallRegistry)
    (callSid fromNumber toNumber : String) (provider : TelephonyProvider) : CallRegistry :=
  registry_insert activeCalls callSid
    { provider := provider, fromNumber := fromNumber, toNumber := toNumber }

/-- Call data for the capacity scenario. -/
def c3_call_data : RouterCallData :=
  { provider := TelephonyProvider.twilio, fromNumber := "+15550100", toNumber := "+15550111" }

/-- A registry already holding `MAX_CONCURRENT_CALLS` distinct calls. -/
def c3_full_registry : CallRegistry :=
  (List.range MAX_CONCURRENT_CALLS).map (fun i => (Nat.repr i, c3_call_data))

/-- Claim C3 (code bug evidence): with the registry already at the
configured maximum of `MAX_CONCURRENT_CALLS` active calls, an eleventh
inbound call is not rejected: `handle_inbound_call` unconditionally
creates its registry entry, growing the registry beyond the maximum,
because no capacity check exists on the admission path. -/
theorem handle_inbound_call_no_capacity_check :
    c3_full_registry.length = MAX_CONCURRENT_CALLS
  ∧ (handle_inbound_call c3_full_registry "call_11" "+15550123" "+15550111"
      TelephonyProvider.twilio).length = MAX_CONCURRENT_CALLS + 1
  ∧ (handle_inbound_call c3_full_registry "call_11" "+15550123" "+15550111"
      TelephonyProvider.twilio).lookup "call_11"
      = some { provider := TelephonyProvider.twilio,
               fromNumber := "+15550123", toNumber := "+15550111" } := by
  decide

/-- Outcome of the attribute lookup and call
`await adapter.handle_call_end(call_sid, duration)` inside
`TelephonyRouter.handle_call_end`.  `TwilioAdapter.handle_call_end`
exists and never lets its internal failures escape (cost reporting and
transcript saving run inside `try`, the dictionary delete inside
`finally`); `ExotelAdapter` defines `end_call` but no method named
`handle_call_end`, so the lookup raises `AttributeError`. -/
inductive AdapterCallEndOutcome where
  | completed
  | attributeError (message : String)
deriving Repr, DecidableEq

def adapter_handle_call_end : TelephonyProvider → AdapterCallEndOutcome
  | TelephonyProvider.twilio => AdapterCallEndOutcome.completed
  | TelephonyProvider.exotel =>
      AdapterCallEndOutcome.attributeError "ExotelAdapter object has no attribute handle_call_end"

/-- `TelephonyRouter.handle_call_end`: an absent call sid returns at
once; otherwise the adapter is invoked and only after it returns does
`del self.active_calls[call_sid]` run — the delete is not inside a
`finally`, so an exception from the adapter dispatch leaves the entry
in place.  The first component is the escaping exception, if any. -/
def router_handle_call_end (activeCalls : CallRegistry) (callSid : String) :
    Option String × CallRegistry :=
  match activeCalls.lookup callSid with
  | none => (none, activeCalls)
  | some callData =>
    match adapter_handle_call_end callData.provider with
    | AdapterCallEndOutcome.completed => (none, registry_remove activeCalls callSid)
    | AdapterCallEndOutcome.attributeError m => (some m, activeCalls)

/-- `ExotelAdapter.end_call` restricted to its effect on the adapters
own `active_calls` keys: absent sid returns immediately; otherwise the
body runs with every failure caught and the delete in `finally`, so the
entry is removed whether or not terminating the conversation raised. -/
def exotel_end_call (activeCalls : List String) (callSid : String)
    (_terminateRaises : Bool) : List String :=
  if callSid ∈ activeCalls then activeCalls.filter (fun s => s != callSid)
  else activeCalls

/-- Registry entry for an active Exotel call. -/
def c7_exotel_entry : RouterCallData :=
  { provider := TelephonyProvider.exotel,
    fromNumber := "+911234500001", toNumber := "+911234500002" }

/-- Claim C7 (code bug evidence): ending an Exotel call through
`TelephonyRouter.handle_call_end` raises (the adapter has no
`handle_call_end` attribute) and the registry entry survives terminal
cleanup, contradicting removal on every error path; removal of an
absent identifier is indeed error-free and leaves the registry
unchanged, and the Exotel adapters own `end_call` does remove its
entry regardless of termination failures. -/
theorem router_call_end_leaks_exotel_entry :
    ((router_handle_call_end [("CA1", c7_exotel_entry)] "CA1").1 ≠ none
      ∧ (router_handle_call_end [("CA1", c7_exotel_entry)] "CA1").2.lookup "CA1"
          = some c7_exotel_entry)
  ∧ router_handle_call_end [("CA1", c7_exotel_entry)] "CA2"
      = (none, [("CA1", c7_exotel_entry)])
  ∧ (∀ (calls : List String) (sid : String) (b : Bool),
      exotel_end_call calls sid b = exotel_end_call calls sid (!b))
  ∧ exotel_end_call ["CA3"] "CA3" true = []
  ∧ exotel_end_call [] "CA3" false = [] := by
  refine ⟨by decide, by decide, ?_, by decide, by decide⟩
  intro calls sid b
  rfl

/-! ## Provider resolution (`telephony_router.py`,
`get_provider_for_call` and `detect_region_from_number`) -/

/-- The `REGION_DEFAULTS` class dictionary.  Phone numbers and region
codes are lists of characters, like the masked numbers above. -/
def REGION_DEFAULTS : List (List Char × TelephonyProvider) :=
  [("IN".toList, TelephonyProvider.exotel), ("US".toList, TelephonyProvider.twilio),
   ("EU".toList, TelephonyProvider.twilio), ("GB".toList, TelephonyProvider.twilio),
   ("default".toList, TelephonyProvider.twilio)]

/-- `REGION_DEFAULTS.get(region, REGION_DEFAULTS["default"])`.  The
final arm totalises the unreachable case of the `"default"` key being
absent from the literal dictionary. -/
def region_default (region : List Char) : TelephonyProvider :=
  match REGION_DEFAULTS.lookup region with
  | some p => p
  | none =>
    match REGION_DEFAULTS.lookup ("default".toList) with
    | some p => p
    | none => TelephonyProvider.twilio

/-- Python `s.replace(c, "")` for a single-character pattern: every
occurrence of the character is removed. -/
def remove_char (s : List Char) (c : Char) : List Char :=
  s.filter (fun a => a != c)

/-- `detect_region_from_number`: empty input maps to `default`; spaces
(character 32) and hyphens (character 45) are stripped, then the prefix
decides the region. -/
def detect_region_from_number (phoneNumber : List Char) : List Char :=
  if phoneNumber = [] then "default".toList
  else
    let number := remove_char (remove_char phoneNumber (Char.ofNat 32)) (Char.ofNat 45)
    if ("+91".toList).isPrefixOf number || ("91".toList).isPrefixOf number then "IN".toList
    else if ("+1".toList).isPrefixOf number then "US".toList
    else if ("+44".toList).isPrefixOf number then "GB".toList
    else if ("+49".toList).isPrefixOf number || ("+33".toList).isPrefixOf number
        || ("+39".toList).isPrefixOf number then "EU".toList
    else "default".toList

/-- The `TelephonyProvider(configured_provider)` enum constructor:
unknown values raise `ValueError`, modelled as `none`. -/
def telephony_provider_of_string (s : String) : Option TelephonyProvider :=
  if s = "twilio" then some TelephonyProvider.twilio
  else if s = "exotel" then some TelephonyProvider.exotel
  else none

/-- Outcome of `await node_api_client.get_business_config(...)` as seen
by `get_provider_for_call`: either a config whose `voiceProvider` field
is present or absent, or an exception. -/
inductive BusinessConfigFetch where
  | ok : Option String → BusinessConfigFetch
  | raised : BusinessConfigFetch
deriving Repr, DecidableEq

/-- `get_provider_for_call`: with a business id, try the configured
provider — an exception during the fetch, an absent or empty
`voiceProvider`, or a `ValueError` from the enum constructor all fall
through to the region-based default; without a business id, go straight
to the region-based default. -/
def get_provider_for_call (phoneNumber : List Char) (businessId : Option String)
    (fetch : BusinessConfigFetch) : TelephonyProvider :=
  let fallback := region_default (detect_region_from_number phoneNumber)
  match businessId with
  | none => fallback
  | some _ =>
    match fetch with
    | BusinessConfigFetch.raised => fallback
    | BusinessConfigFetch.ok none => fallback
    | BusinessConfigFetch.ok (some p) =>
      if p = "" then fallback
      else
        match telephony_provider_of_string p with
        | some prov => prov
        | none => fallback

/-- Claim C8: a successfully fetched business config naming a valid
provider wins for every caller number; a fetch exception fails open to
the region default derived from the country code; and the concrete
number `+911234567890` with no business override resolves through
region `IN` to the Exotel default. -/
theorem provider_resolution_order :
    (∀ (phone : List Char) (bid : String),
      get_provider_for_call phone (some bid) (BusinessConfigFetch.ok (some "twilio"))
        = TelephonyProvider.twilio)
  ∧ (∀ (phone : List Char) (bid : String),
      get_provider_for_call phone (some bid) (BusinessConfigFetch.ok (some "exotel"))
        = TelephonyProvider.exotel)
  ∧ (∀ (phone : List Char) (bid : Option String),
      get_provider_for_call phone bid BusinessConfigFetch.raised
        = region_default (detect_region_from_number phone))
  ∧ detect_region_from_number ("+911234567890".toList) = "IN".toList
  ∧ (∀ fetch : BusinessConfigFetch,
      get_provider_for_call ("+911234567890".toList) none fetch = TelephonyProvider.exotel) := by
  refine ⟨?_, ?_, ?_, ?_, ?_⟩
  · intro phone bid; rfl
  · intro phone bid; rfl
  · intro phone bid; cases bid <;> rfl
  · decide
  · intro fetch; rfl

/-! ## Webhook signature validation (`twilio_adapter.py`,
`exotel_adapter.py`)

The Twilio inbound route validates the `X-Twilio-Signature` header
before anything else and raises a 403 `HTTPException` when validation
fails; only after that does `handle_inbound_call` start session work
(context fetch, registry entry, conversation record).  The Exotel
websocket route `exotel_stream` accepts the connection and processes
`start`, `media`, `stop` and `mark` events; no branch of it reads a
signature header or calls any validator (the repository defines
`ExotelHandler.validate_webhook_signature` but never invokes it on this
path), so session work begins on the first `start` event for every
connection. -/

/-- One Twilio webhook request: the signature header, the request URL
and the form parameters. -/
structure TwilioWebhookRequest where
  signatureHeader : String
  url : String
  params : List (String × String)
deriving Repr, DecidableEq

/-- Responses of the Twilio inbound route: a 403 rejection raised
before session work, the TwiML connecting the call after session work
succeeded, or the spoken error message when session work raised. -/
inductive TwilioInboundResponse where
  | rejected (status : Nat)
  | connectStream (callSid : String)
  | errorSay
deriving Repr, DecidableEq

/-- `validate_twilio_signature`: with no auth token configured,
validation is skipped (returns true); otherwise the result of the
`RequestValidator` over URL, form parameters and header.  The HMAC
computation itself lives in the Twilio library, so it enters the model
as the `validator` argument. -/
def validate_twilio_signature (authToken : String)
    (validator : String → List (String × String) → String → Bool)
    (req : TwilioWebhookRequest) : Bool :=
  if authToken = "" then true
  else validator req.url req.params req.signatureHeader

/-- The `twilio_inbound` route: reject with 403 when validation fails,
otherwise run `handle_inbound_call` (session work), answering with the
stream TwiML on success and the spoken error message if it raised. -/
def twilio_inbound (authToken : String)
    (validator : String → List (String × String) → String → Bool)
    (req : TwilioWebhookRequest) (sessionWorkRaises : Bool) : TwilioInboundResponse :=
  if validate_twilio_signature authToken validator req = false then
    TwilioInboundResponse.rejected 403
  else if sessionWorkRaises then TwilioInboundResponse.errorSay
  else TwilioInboundResponse.connectStream ((req.params.lookup "CallSid").getD "")

/-- The events the Exotel websocket loop distinguishes. -/
inductive ExotelEvent where
  | start (callSid fromNumber toNumber : String)
  | media (payload : String)
  | stop
  | mark
  | unknown
deriving Repr, DecidableEq

/-- The message loop of `exotel_stream`: a `start` event triggers
`start_conversation` — context fetch, adapter registry entry,
conversation record, conversation start — recorded here by appending
the call sid to the list of started sessions; `stop` breaks the loop;
everything else is passed over. -/
def exotel_stream_loop : List ExotelEvent → List String → List String
  | [], started => started
  | ExotelEvent.start sid _ _ :: rest, started => exotel_stream_loop rest (started ++ [sid])
  | ExotelEvent.media _ :: rest, started => exotel_stream_loop rest started
  | ExotelEvent.stop :: _, started => started
  | ExotelEvent.mark :: rest, started => exotel_stream_loop rest started
  | ExotelEvent.unknown :: rest, started => exotel_stream_loop rest started

/-- The `exotel_stream` endpoint.  The connection headers (which is
where a provider signature would arrive) are accepted but never read by
the source, which is why the parameter is unused. -/
def exotel_stream (_headers : List (String × String)) (events : List ExotelEvent) : List String :=
  exotel_stream_loop events []

/-- Claim C4 (code bug evidence): on the Exotel path, session work
begins for every connection — whatever signature headers it carries,
including invalid ones — because `exotel_stream` performs no signature
validation at all: its result is independent of the headers, and a
single `start` event starts a session.  By contrast the Twilio inbound
route with an auth token configured returns 403 before session work
exactly when the validator rejects the request. -/
theorem exotel_stream_no_signature_validation :
    (∀ headers : List (String × String),
      exotel_stream headers
        [ExotelEvent.start "exoCall1" "+911111111111" "+912222222222"]
        = ["exoCall1"])
  ∧ (∀ (headers : List (String × String)) (events : List ExotelEvent),
      exotel_stream headers events = exotel_stream [] events)
  ∧ (∀ (validator : String → List (String × String) → String → Bool)
      (req : TwilioWebhookRequest) (raises : Bool),
      twilio_inbound "secret_token" validator req raises
        = if validator req.url req.params req.signatureHeader then
            (if raises then TwilioInboundResponse.errorSay
             else TwilioInboundResponse.connectStream ((req.params.lookup "CallSid").getD ""))
          else TwilioInboundResponse.rejected 403) := by
  refine ⟨fun headers => rfl, fun headers events => rfl, ?_⟩
  intro validator req raises
  by_cases h : validator req.url req.params req.signatureHeader
    <;> simp [twilio_inbound, validate_twilio_signature, h]

/-! ## Context fetch fallback (`api/client.py`,
`vocode_native_server.py`) -/

/-- The call context dictionary, restricted to the fields the default
objects populate.  `customerTrustScore` is optional because the default
of `_get_default_context` omits it while `get_full_context` sets 50. -/
structure CallContext where
  customerName : String
  customerTrustScore : Option Nat
  businessName : String
  memories : List String
  recentConversations : List String
  welcomeMessage : String
  voiceId : String
deriving Repr, DecidableEq

/-- `Settings.AZURE_SPEECH_VOICE` default (`config.py`). -/
def AZURE_SPEECH_VOICE : String := "en-US-JennyNeural"

/-- The minimal default context that `NodeAPIClient.get_full_context`
returns when the backend request yields nothing. -/
def default_full_context : CallContext :=
  { customerName := "Customer", customerTrustScore := some 50,
    businessName := "Business", memories := [], recentConversations := [],
    welcomeMessage := "Hello! How can I help you today?",
    voiceId := "en-US-JennyNeural" }

/-- `NodeAPIClient.get_full_context`: the `_request` helper catches
every transport failure and timeout internally and returns `None` after
its retries, in which case the default context is substituted. -/
def get_full_context (result : Option CallContext) : CallContext :=
  match result with
  | some ctx => ctx
  | none => default_full_context

/-- `VocodeNativeServer._get_default_context`, used when even the call
to `get_full_context` raises. -/
def native_default_context : CallContext :=
  { customerName := "Customer", customerTrustScore := none,
    businessName := "Business", memories := [], recentConversations := [],
    welcomeMessage := "Hello! How can I help you today?",
    voiceId := AZURE_SPEECH_VOICE }

/-- Outcome of the one-time context fetch at call start as seen by
`VocodeNativeServer.start`: backend data, a failed or timed-out request
(absorbed inside `get_full_context`), or an exception escaping the
fetch (absorbed by the `try` in `start`). -/
inductive ContextFetchOutcome where
  | ok : CallContext → ContextFetchOutcome
  | requestFailed
  | raised
deriving Repr, DecidableEq

/-- What `start` has decided by the end of its context step: the
context the session will use, and whether it went on to create the
conversation and pipeline (the Pending to Active transition). -/
structure NativeStartResult where
  context : CallContext
  proceeded : Bool
deriving Repr, DecidableEq

/-- The context step of `VocodeNativeServer.start`: every fetch outcome
falls through to conversation creation; no outcome blocks the
transition. -/
def vocode_native_start (outcome : ContextFetchOutcome) : NativeStartResult :=
  match outcome with
  | ContextFetchOutcome.ok ctx => { context := get_full_context (some ctx), proceeded := true }
  | ContextFetchOutcome.requestFailed => { context := get_full_context none, proceeded := true }
  | ContextFetchOutcome.raised => { context := native_default_context, proceeded := true }

/-- Claim C5: whatever the context fetch does — succeed, fail, time
out, or raise — the session proceeds (the transition out of Pending is
never blocked), and on failure the default context is used, whose
welcome message is the fixed string. -/
theorem context_fetch_failure_uses_default :
    (∀ outcome : ContextFetchOutcome, (vocode_native_start outcome).proceeded = true)
  ∧ (vocode_native_start ContextFetchOutcome.requestFailed).context = default_full_context
  ∧ default_full_context.welcomeMessage = "Hello! How can I help you today?"
  ∧ (vocode_native_start ContextFetchOutcome.raised).context.welcomeMessage
      = "Hello! How can I help you today?" := by
  exact ⟨fun outcome => by cases outcome <;> rfl, rfl, rfl, rfl⟩

/-! ## Response stage (`vocode_server.py`, `_process_user_message`) -/

/-- The backend reply to `process_voice_message`, reduced to its
`response` field (absent when the key is missing). -/
structure BackendVoiceReply where
  response : Option String
deriving Repr, DecidableEq

/-- Outcome of the backend request: a reply, `None` (the API client
absorbs every HTTP failure into `None`), or an exception inside the
processing body. -/
inductive BackendOutcome where
  | ok : BackendVoiceReply → BackendOutcome
  | requestFailed
  | raised
deriving Repr, DecidableEq

/-- The observable effect of `_process_user_message`: the texts put on
the synthesis queue, and whether the method terminates the call (it
never touches `is_running`). -/
structure ProcessUserMessageResult where
  queued : List String
  terminatesCall : Bool
deriving Repr, DecidableEq

/-- The apology queued when the backend returns no usable response. -/
def apology_no_response : String :=
  "I\x27m sorry, I didn\x27t understand that. Could you please rephrase?"

/-- The apology queued when processing raises. -/
def apology_error : String :=
  "I\x27m having trouble processing your request. Please try again."

/-- `_process_user_message` after transcription: a truthy `response`
field is queued for synthesis; a missing reply, a missing `response`
key, or an empty string (falsy in Python) queues the first apology; an
exception anywhere in the body is caught and queues the second apology.
No branch stops the call. -/
def process_user_message (outcome : BackendOutcome) : ProcessUserMessageResult :=
  match outcome with
  | BackendOutcome.ok reply =>
    match reply.response with
    | some ai =>
      if ai = "" then { queued := [apology_no_response], terminatesCall := false }
      else { queued := [ai], terminatesCall := false }
    | none => { queued := [apology_no_response], terminatesCall := false }
  | BackendOutcome.requestFailed => { queued := [apology_no_response], terminatesCall := false }
  | BackendOutcome.raised => { queued := [apology_error], terminatesCall := false }

/-- Claim C6: every outcome of the backend request queues exactly one
utterance — the returned text on success, a generic apology on failure
or empty response — so the caller is never left with silence, and no
outcome terminates the call. -/
theorem process_user_message_never_silent :
    (∀ outcome : BackendOutcome,
      (process_user_message outcome).queued ≠ []
      ∧ (process_user_message outcome).terminatesCall = false)
  ∧ process_user_message BackendOutcome.requestFailed
      = { queued := [apology_no_response], terminatesCall := false }
  ∧ process_user_message (BackendOutcome.ok { response := none })
      = { queued := [apology_no_response], terminatesCall := false }
  ∧ process_user_message (BackendOutcome.ok { response := some "" })
      = { queued := [apology_no_response], terminatesCall := false }
  ∧ process_user_message BackendOutcome.raised
      = { queued := [apology_error], terminatesCall := false }
  ∧ (∀ t : String, t ≠ "" →
      process_user_message (BackendOutcome.ok { response := some t })
        = { queued := [t], terminatesCall := false }) := by
  refine ⟨?_, rfl, rfl, by decide, rfl, ?_⟩
  · intro outcome
    rcases outcome with reply | _ | _
    · rcases reply with ⟨_ | ai⟩
      · exact ⟨by simp [process_user_message], rfl⟩
      · by_cases h : ai = "" <;> simp [process_user_message, h]
    · exact ⟨by simp [process_user_message], rfl⟩
    · exact ⟨by simp [process_user_message], rfl⟩
  · intro t ht
    simp [process_user_message, ht]

/-- Witness for the success conjunct of the C6 theorem at a concrete
non-empty response. -/
theorem process_user_message_never_silent_witness :
    ("Hi" : String) ≠ ""
  ∧ process_user_message (BackendOutcome.ok { response := some "Hi" })
      = { queued := ["Hi"], terminatesCall := false } :=
  ⟨by decide, process_user_message_never_silent.2.2.2.2.2 "Hi" (by decide)⟩

/-- Witness instantiating the C2 theorem on a concrete trace that
crosses both thresholds: 25 chunks at times 0..480 ms followed by a
poll at 1000 ms submit one utterance of those 25 chunks. -/
theorem turn_detector_emission_witness :
    (td_run (((List.range 25).map (fun i => TDEvent.chunk (20 * i)))
      ++ [TDEvent.tick 1000])).emitted.Pairwise (fun u v => ∀ x ∈ u, x ∉ v) :=
  turn_detector_emission.2.2
    (((List.range 25).map (fun i => TDEvent.chunk (20 * i))) ++ [TDEvent.tick 1000])
